import Mathlib

/-!
Verification model of `google-authorize` (src/index.js), a small OAuth2
authorization helper.  The JavaScript code is shallowly embedded as pure
Lean functions over an explicit `World` describing the external
environment (file-system contents, console input, the token-exchange
endpoint).  Every externally visible action of a run (file reads, console
output, the network exchange, directory creation, the cache-file write) is
recorded in an event trace, and the promise returned by `authorize()` is
modelled by an `Outcome` (resolved / rejected / uncaught exception).

JSON text is modelled abstractly: the content of a file is either
well-formed JSON text, represented by the `Json` value it parses to, or
non-JSON text.  `JSON.stringify(token)` is correspondingly modelled as the
well-formed JSON text whose parse is `token` (`FileData.json token`).
-/

/-- A JSON value, as produced by a successful `JSON.parse`. -/
inductive Json where
  | null
  | boolean (b : Bool)
  | num (n : Int)
  | str (s : String)
  | arr (elems : List Json)
  | obj (fields : List (String × Json))
deriving Repr

/-- Content of a file: either well-formed JSON text (represented by its
parse) or other text. -/
inductive FileData where
  | json (j : Json)
  | text (s : String)
deriving Repr

/-- Model of `JSON.parse`: succeeds exactly on well-formed JSON text. -/
def jsonParse : FileData → Option Json
  | .json j => some j
  | .text _ => none

/-- A JavaScript error value; `code` models the `err.code` property of
Node.js system errors (`none` when the property is absent). -/
structure JsError where
  message : String
  code : Option String := none
deriving Repr, DecidableEq

/-- The three environment variables consulted for the home directory
(`none` models an undefined variable). -/
structure Env where
  HOME : Option String
  HOMEPATH : Option String
  USERPROFILE : Option String
deriving Repr, DecidableEq

/-- JavaScript truthiness of a possibly-undefined string: `undefined` and
the empty string are falsy. -/
def jsTruthy : Option String → Bool
  | none => false
  | some s => !(s == "")

/-- JavaScript `a || b` on possibly-undefined strings. -/
def jsOr (a b : Option String) : Option String :=
  if jsTruthy a then a else b

/-- The value of `process.env.HOME || process.env.HOMEPATH ||
process.env.USERPROFILE` (src/index.js lines 34-35). -/
def homeDir (env : Env) : Option String :=
  jsOr env.HOME (jsOr env.HOMEPATH env.USERPROFILE)

/-- JavaScript string coercion of a possibly-undefined string, as performed
by the `+` operator: `undefined` coerces to the literal text "undefined". -/
def jsToString : Option String → String
  | none => "undefined"
  | some s => s

/-- A JavaScript value passed as the `scopes` constructor argument.  Arrays
of scope short-names are the intended inputs; the other constructors model
non-array values. -/
inductive JsVal where
  | arr (elems : List String)
  | str (s : String)
  | num (n : Int)
  | boolean (b : Bool)
  | null
  | undef
deriving Repr, DecidableEq

/-- Model of `Array.isArray`. -/
def JsVal.isArray : JsVal → Bool
  | .arr _ => true
  | _ => false

/-- One externally visible action of a run. -/
inductive Event where
  | readFile (path : String)
  | consoleError (msg : String)
  | consoleLog (msg : String)
  | printAuthUrl (accessType : String) (scope : List String)
  | question (prompt : String) (answer : String)
  | tokenExchange (authCode : String)
  | mkdirSync (path : String)
  | writeFileStart (path : String) (data : FileData)
  | writeFileComplete (path : String)
  | writeFileError (path : String) (e : JsError)
deriving Repr

/-- Instance state of the `GoogleAuthorize` class after construction. -/
structure GoogleAuthorize where
  SCOPES : List String
  TOKEN_DIR : String
  TOKEN_PATH : String
  credentialsPath : String
deriving Repr, DecidableEq

/-- The fixed base URL prepended to each scope short-name
(src/index.js line 30). -/
def scopeBase : String := "https://www.googleapis.com/auth/"

/-- The scope-building IIFE of the constructor (src/index.js lines 27-33):
starts from an empty array and pushes the prefixed form of each scope in
order. -/
def buildScopes (scopes : List String) : List String :=
  scopes.foldl (fun acc scope => acc ++ [scopeBase ++ scope]) []

/-- The `GoogleAuthorize` constructor (src/index.js lines 21-38).  Returns
the thrown error or the constructed instance, paired with the trace of I/O
events performed during construction (the constructor performs none). -/
def construct (scopes : JsVal) (credentialsPath : Option String) (env : Env) :
    Except JsError GoogleAuthorize × List Event :=
  if !scopes.isArray then
    (.error { message := "Initialize with array of scope names." }, [])
  else
    let scopeList := match scopes with
      | .arr xs => xs
      | _ => []
    let tokenDir := jsToString (homeDir env) ++ "/.credentials/"
    (.ok { SCOPES := buildScopes scopeList
           TOKEN_DIR := tokenDir
           TOKEN_PATH := tokenDir ++ "googleapis.json"
           credentialsPath := jsToString (jsOr credentialsPath (some "credentials.json")) },
     [])

/-- The OAuth2 client handle built by `_authorize`.  Field values are
possibly-undefined JSON values; `credentials` is set when a token is
attached. -/
structure OAuth2Client where
  clientId : Option Json
  clientSecret : Option Json
  redirectUrl : Option Json
  credentials : Option Json
deriving Repr

/-- The external environment of one run: the file system, the console
input line, the token-exchange endpoint, and the results of directory
creation and of the asynchronous cache-file write. -/
structure World where
  readFile : String → Except JsError FileData
  stdinLine : String
  getToken : String → Except JsError Json
  mkdirSync : String → Except JsError Unit
  writeFile : String → FileData → Option JsError

/-- Final state of the promise returned by `authorize()`.  `uncaught`
models an exception escaping inside an asynchronous callback, leaving the
promise forever pending. -/
inductive Outcome where
  | resolved (client : OAuth2Client)
  | rejected (e : JsError)
  | uncaught (e : JsError)
deriving Repr

/-- JavaScript property access `v.k` on a possibly-undefined value:
throws a TypeError on `undefined` and `null`, yields the field on an
object (or `undefined` when absent), and `undefined` on other values. -/
def jsGet (v : Option Json) (k : String) : Except JsError (Option Json) :=
  match v with
  | none => .error { message := "Cannot read properties of undefined" }
  | some .null => .error { message := "Cannot read properties of null" }
  | some (.obj fields) => .ok ((fields.find? (fun p => p.1 == k)).map (·.2))
  | some _ => .ok none

/-- JavaScript index access `v[i]` on a possibly-undefined value. -/
def jsIndex (v : Option Json) (i : Nat) : Except JsError (Option Json) :=
  match v with
  | none => .error { message := "Cannot read properties of undefined" }
  | some .null => .error { message := "Cannot read properties of null" }
  | some (.arr xs) => .ok (xs.get? i)
  | some _ => .ok none

/-- Field extraction at the top of `_authorize` (src/index.js lines 71-73),
in source order: `installed.client_secret`, `installed.client_id`,
`installed.redirect_uris[0]`. -/
def extractInstalled (credentials : Json) :
    Except JsError (Option Json × Option Json × Option Json) := do
  let installed ← jsGet (some credentials) "installed"
  let clientSecret ← jsGet installed "client_secret"
  let clientId ← jsGet installed "client_id"
  let redirect_uris ← jsGet installed "redirect_uris"
  let redirectUrl ← jsIndex redirect_uris 0
  return (clientSecret, clientId, redirectUrl)

/-- Events of the asynchronous `fs.writeFile` of `storeToken`
(src/index.js lines 137-140): the write of `JSON.stringify(token)` is
initiated, the destination path is logged synchronously, and the write
completes (or its callback throws) afterwards. -/
def storeTokenWrite (ga : GoogleAuthorize) (w : World) (token : Json) : List Event :=
  let d := FileData.json token
  [Event.writeFileStart ga.TOKEN_PATH d,
   Event.consoleLog ("Token stored to " ++ ga.TOKEN_PATH)] ++
  (match w.writeFile ga.TOKEN_PATH d with
   | none => [Event.writeFileComplete ga.TOKEN_PATH]
   | some e => [Event.writeFileError ga.TOKEN_PATH e])

/-- `storeToken` (src/index.js lines 129-141): `fs.mkdirSync` on the cache
directory, swallowing an EEXIST failure and re-throwing any other error;
then the asynchronous write.  Returns the synchronous result (thrown error
or normal return) and the event trace. -/
def storeToken (ga : GoogleAuthorize) (w : World) (token : Json) :
    Except JsError Unit × List Event :=
  match w.mkdirSync ga.TOKEN_DIR with
  | .error e =>
      if e.code = some "EEXIST" then
        (.ok (), Event.mkdirSync ga.TOKEN_DIR :: storeTokenWrite ga w token)
      else
        (.error e, [Event.mkdirSync ga.TOKEN_DIR])
  | .ok _ => (.ok (), Event.mkdirSync ga.TOKEN_DIR :: storeTokenWrite ga w token)

/-- `getNewToken` (src/index.js lines 100-123): print the authorization
URL (offline access, the configured scopes), ask for the code on the
console, exchange it once; on failure log and reject, on success attach
the token, store it, and resolve with the client.  A throw out of
`storeToken` escapes the `getToken` callback uncaught. -/
def getNewToken (ga : GoogleAuthorize) (w : World) (client : OAuth2Client) :
    Outcome × List Event :=
  let pre := [Event.printAuthUrl "offline" ga.SCOPES,
              Event.question "Enter the code from that page here: " w.stdinLine,
              Event.tokenExchange w.stdinLine]
  match w.getToken w.stdinLine with
  | .error e =>
      (.rejected e, pre ++ [Event.consoleLog "Error while trying to retrieve access token"])
  | .ok token =>
      match storeToken ga w token with
      | (.ok _, evs) =>
          (.resolved { client with credentials := some token }, pre ++ evs)
      | (.error e2, evs) => (.uncaught e2, pre ++ evs)

/-- `_authorize` (src/index.js lines 70-88): build the OAuth2 client from
the credentials document, then read the cached token file; on a successful
read parse it and resolve with the client, otherwise fall back to
`getNewToken`.  A parse failure on the cache content throws inside the
read callback, uncaught. -/
def GoogleAuthorize.authCached (ga : GoogleAuthorize) (w : World) (credentials : Json) :
    Outcome × List Event :=
  match extractInstalled credentials with
  | .error e => (.uncaught e, [])
  | .ok (clientSecret, clientId, redirectUrl) =>
      let client : OAuth2Client :=
        { clientId := clientId, clientSecret := clientSecret,
          redirectUrl := redirectUrl, credentials := none }
      let rd := Event.readFile ga.TOKEN_PATH
      match w.readFile ga.TOKEN_PATH with
      | .error _ =>
          let (o, evs) := getNewToken ga w client
          (o, rd :: evs)
      | .ok fileData =>
          match jsonParse fileData with
          | some token =>
              (.resolved { client with credentials := some token }, [rd])
          | none =>
              (.uncaught { message := "Unexpected token in JSON" }, [rd])

/-- `authorize` (src/index.js lines 46-61): read the credentials file,
logging and rejecting on a read failure; otherwise `JSON.parse` the
content (a parse failure throws inside the read callback, uncaught) and
continue with `_authorize`. -/
def GoogleAuthorize.authorize (ga : GoogleAuthorize) (w : World) :
    Outcome × List Event :=
  let rd := Event.readFile ga.credentialsPath
  match w.readFile ga.credentialsPath with
  | .error e =>
      (.rejected e,
       [rd, Event.consoleError ("Error loading credentials.json file: " ++ e.message)])
  | .ok content =>
      match jsonParse content with
      | none => (.uncaught { message := "Unexpected token in JSON" }, [rd])
      | some credentials =>
          let (o, evs) := ga.authCached w credentials
          (o, rd :: evs)

/-- An event of the interactive token-acquisition path: printing the
authorization URL, prompting the console, or the token-exchange call. -/
def Event.isInteractive : Event → Bool
  | .printAuthUrl _ _ => true
  | .question _ _ => true
  | .tokenExchange _ => true
  | _ => false

/-- An event that invokes the token store: directory creation or any phase
of the cache-file write. -/
def Event.touchesStore : Event → Bool
  | .mkdirSync _ => true
  | .writeFileStart _ _ => true
  | .writeFileComplete _ => true
  | .writeFileError _ _ => true
  | _ => false

/-- An event that is a token-exchange call. -/
def Event.isExchange : Event → Bool
  | .tokenExchange _ => true
  | _ => false

/-- Generalisation of the constructor's push loop: folding pushes onto an
accumulator appends the prefixed scopes in order. -/
theorem buildScopes_go (l acc : List String) :
    l.foldl (fun a scope => a ++ [scopeBase ++ scope]) acc
      = acc ++ l.map (fun scope => scopeBase ++ scope) := by
  induction l generalizing acc with
  | nil => simp
  | cons x xs ih => simp [List.foldl, ih]

/-- The constructor's scope loop equals element-wise prefixing. -/
theorem buildScopes_eq_map (l : List String) :
    buildScopes l = l.map (fun scope => scopeBase ++ scope) := by
  simpa using buildScopes_go l []

/-- C1: for every array of scope short-names passed to the constructor,
the constructed `SCOPES` list equals the input list with each element
prefixed by the fixed base URL, preserving order and count. -/
theorem C1_scopes_prefixed (scopes : List String) (credentialsPath : Option String)
    (env : Env) (ga : GoogleAuthorize)
    (h : (construct (.arr scopes) credentialsPath env).1 = .ok ga) :
    ga.SCOPES = scopes.map (fun scope => scopeBase ++ scope) := by
  simp only [construct, JsVal.isArray, Bool.not_true, Bool.false_eq_true, if_false,
    reduceIte] at h
  cases h
  exact buildScopes_eq_map scopes

/-- Example environment used by concrete witnesses. -/
def envEx : Env := { HOME := some "/home/u", HOMEPATH := none, USERPROFILE := none }

/-- The instance constructed from `["spreadsheets"]` in `envEx`. -/
def gaEx : GoogleAuthorize :=
  { SCOPES := [scopeBase ++ "spreadsheets"]
    TOKEN_DIR := "/home/u/.credentials/"
    TOKEN_PATH := "/home/u/.credentials/googleapis.json"
    credentialsPath := "credentials.json" }

/-- Witness for C1 at the concrete input `["spreadsheets"]`. -/
theorem C1_witness :
    gaEx.SCOPES = ["spreadsheets"].map (fun scope => scopeBase ++ scope) :=
  C1_scopes_prefixed ["spreadsheets"] none envEx gaEx rfl

/-- C3: for every non-array value passed as the scopes argument the
constructor throws, and its event trace is empty: no file is read,
created or written during construction. -/
theorem C3_nonarray_throws (scopes : JsVal) (credentialsPath : Option String) (env : Env)
    (h : scopes.isArray = false) :
    construct scopes credentialsPath env =
      (.error { message := "Initialize with array of scope names." }, []) := by
  simp [construct, h]

/-- Witness for C3 at the concrete non-array input `"mail"`. -/
theorem C3_witness :
    construct (.str "mail") none envEx =
      (.error { message := "Initialize with array of scope names." }, []) :=
  C3_nonarray_throws (.str "mail") none envEx rfl

/-- C10: when none of HOME, HOMEPATH and USERPROFILE is defined the
constructor still succeeds, and string concatenation with the undefined
value yields the literal token directory "undefined/.credentials/" and
cache path "undefined/.credentials/googleapis.json". -/
theorem C10_undefined_home (scopes : List String) (credentialsPath : Option String) :
    construct (.arr scopes) credentialsPath
        { HOME := none, HOMEPATH := none, USERPROFILE := none } =
      (.ok { SCOPES := buildScopes scopes
             TOKEN_DIR := "undefined/.credentials/"
             TOKEN_PATH := "undefined/.credentials/googleapis.json"
             credentialsPath := jsToString (jsOr credentialsPath (some "credentials.json")) },
       []) :=
  rfl

/-- C2: when the credentials file is readable (well-formed, with client id,
secret and redirect URI) and the cache file read succeeds with well-formed
JSON, `authorize()` resolves with a client whose credentials equal the
parsed cache content, and the trace holds the two file reads only: the
interactive path (URL printing, console prompt, token exchange) is not
taken. -/
theorem C2_cache_hit (ga : GoogleAuthorize) (w : World) (cred tok : Json)
    (cs cid ru : Option Json)
    (hcred : w.readFile ga.credentialsPath = .ok (.json cred))
    (hx : extractInstalled cred = .ok (cs, cid, ru))
    (htok : w.readFile ga.TOKEN_PATH = .ok (.json tok)) :
    ga.authorize w =
      (.resolved { clientId := cid, clientSecret := cs, redirectUrl := ru,
                   credentials := some tok },
       [.readFile ga.credentialsPath, .readFile ga.TOKEN_PATH]) ∧
    (ga.authorize w).2.all (fun e => !e.isInteractive) = true := by
  have hmain : ga.authorize w =
      (.resolved { clientId := cid, clientSecret := cs, redirectUrl := ru,
                   credentials := some tok },
       [.readFile ga.credentialsPath, .readFile ga.TOKEN_PATH]) := by
    simp [GoogleAuthorize.authorize, GoogleAuthorize.authCached, jsonParse, hcred, hx, htok]
  refine ⟨hmain, ?_⟩
  rw [hmain]
  rfl

/-- C4: when the credentials file read fails, `authorize()` rejects with
the underlying read error after logging it, and the trace holds no
token-store event: the cache file is neither created nor modified. -/
theorem C4_cred_read_failure (ga : GoogleAuthorize) (w : World) (e : JsError)
    (h : w.readFile ga.credentialsPath = .error e) :
    ga.authorize w =
      (.rejected e,
       [.readFile ga.credentialsPath,
        .consoleError ("Error loading credentials.json file: " ++ e.message)]) ∧
    (ga.authorize w).2.all (fun ev => !ev.touchesStore) = true := by
  have hmain : ga.authorize w =
      (.rejected e,
       [.readFile ga.credentialsPath,
        .consoleError ("Error loading credentials.json file: " ++ e.message)]) := by
    simp [GoogleAuthorize.authorize, h]
  refine ⟨hmain, ?_⟩
  rw [hmain]
  rfl

/-- C5: when the credentials file is readable but the cache file read
fails, `authorize()` prints an authorization URL whose scope list carries
every requested (prefixed) scope, waits for one console line, performs
exactly one token exchange with that line, and on success writes the
serialized returned token to the cache file path. -/
theorem C5_interactive_success (ga : GoogleAuthorize) (w : World) (cred tok : Json)
    (cs cid ru : Option Json) (e : JsError)
    (hcred : w.readFile ga.credentialsPath = .ok (.json cred))
    (hx : extractInstalled cred = .ok (cs, cid, ru))
    (htok : w.readFile ga.TOKEN_PATH = .error e)
    (hex : w.getToken w.stdinLine = .ok tok)
    (hmk : w.mkdirSync ga.TOKEN_DIR = .ok ())
    (hw : w.writeFile ga.TOKEN_PATH (.json tok) = none) :
    ga.authorize w =
      (.resolved { clientId := cid, clientSecret := cs, redirectUrl := ru,
                   credentials := some tok },
       [.readFile ga.credentialsPath, .readFile ga.TOKEN_PATH,
        .printAuthUrl "offline" ga.SCOPES,
        .question "Enter the code from that page here: " w.stdinLine,
        .tokenExchange w.stdinLine,
        .mkdirSync ga.TOKEN_DIR,
        .writeFileStart ga.TOKEN_PATH (.json tok),
        .consoleLog ("Token stored to " ++ ga.TOKEN_PATH),
        .writeFileComplete ga.TOKEN_PATH]) ∧
    (ga.authorize w).2.countP (fun ev => ev.isExchange) = 1 ∧
    ∀ scope ∈ ga.SCOPES, ∃ sl, Event.printAuthUrl "offline" sl ∈ (ga.authorize w).2 ∧
      scope ∈ sl := by
  have hmain : ga.authorize w =
      (.resolved { clientId := cid, clientSecret := cs, redirectUrl := ru,
                   credentials := some tok },
       [.readFile ga.credentialsPath, .readFile ga.TOKEN_PATH,
        .printAuthUrl "offline" ga.SCOPES,
        .question "Enter the code from that page here: " w.stdinLine,
        .tokenExchange w.stdinLine,
        .mkdirSync ga.TOKEN_DIR,
        .writeFileStart ga.TOKEN_PATH (.json tok),
        .consoleLog ("Token stored to " ++ ga.TOKEN_PATH),
        .writeFileComplete ga.TOKEN_PATH]) := by
    simp [GoogleAuthorize.authorize, GoogleAuthorize.authCached, getNewToken, storeToken,
      storeTokenWrite, jsonParse, hcred, hx, htok, hex, hmk, hw]
  refine ⟨hmain, ?_, ?_⟩
  · rw [hmain]
    rfl
  · intro scope hs
    exact ⟨ga.SCOPES, by rw [hmain]; simp, hs⟩

/-- C6: when the token exchange fails, `authorize()` logs the failure and
rejects with the exchange error; the trace holds exactly one exchange
attempt and no token-store event, and no client (hence no attached token)
is produced. -/
theorem C6_exchange_failure (ga : GoogleAuthorize) (w : World) (cred : Json)
    (cs cid ru : Option Json) (e e2 : JsError)
    (hcred : w.readFile ga.credentialsPath = .ok (.json cred))
    (hx : extractInstalled cred = .ok (cs, cid, ru))
    (htok : w.readFile ga.TOKEN_PATH = .error e)
    (hex : w.getToken w.stdinLine = .error e2) :
    ga.authorize w =
      (.rejected e2,
       [.readFile ga.credentialsPath, .readFile ga.TOKEN_PATH,
        .printAuthUrl "offline" ga.SCOPES,
        .question "Enter the code from that page here: " w.stdinLine,
        .tokenExchange w.stdinLine,
        .consoleLog "Error while trying to retrieve access token"]) ∧
    (ga.authorize w).2.countP (fun ev => ev.isExchange) = 1 ∧
    (ga.authorize w).2.all (fun ev => !ev.touchesStore) = true := by
  have hmain : ga.authorize w =
      (.rejected e2,
       [.readFile ga.credentialsPath, .readFile ga.TOKEN_PATH,
        .printAuthUrl "offline" ga.SCOPES,
        .question "Enter the code from that page here: " w.stdinLine,
        .tokenExchange w.stdinLine,
        .consoleLog "Error while trying to retrieve access token"]) := by
    simp [GoogleAuthorize.authorize, GoogleAuthorize.authCached, getNewToken, jsonParse,
      hcred, hx, htok, hex]
  refine ⟨hmain, ?_, ?_⟩ <;> rw [hmain] <;> rfl

/-- C9: when the cache file read succeeds but its content is not
well-formed JSON, the parse failure escapes uncaught inside the read
callback: `authorize()` neither rejects nor takes the interactive path. -/
theorem C9_corrupt_cache (ga : GoogleAuthorize) (w : World) (cred : Json)
    (cs cid ru : Option Json) (s : String)
    (hcred : w.readFile ga.credentialsPath = .ok (.json cred))
    (hx : extractInstalled cred = .ok (cs, cid, ru))
    (htok : w.readFile ga.TOKEN_PATH = .ok (.text s)) :
    ga.authorize w =
      (.uncaught { message := "Unexpected token in JSON" },
       [.readFile ga.credentialsPath, .readFile ga.TOKEN_PATH]) ∧
    (∀ e : JsError, (ga.authorize w).1 ≠ .rejected e) ∧
    (ga.authorize w).2.all (fun ev => !ev.isInteractive) = true := by
  have hmain : ga.authorize w =
      (.uncaught { message := "Unexpected token in JSON" },
       [.readFile ga.credentialsPath, .readFile ga.TOKEN_PATH]) := by
    simp [GoogleAuthorize.authorize, GoogleAuthorize.authCached, jsonParse, hcred, hx, htok]
  refine ⟨hmain, ?_, ?_⟩ <;> rw [hmain]
  · exact fun e h => Outcome.noConfusion h
  · rfl

/-- C7: when directory creation fails, an "already exists" (EEXIST)
failure is swallowed and `storeToken` proceeds to the write, while a
failure with any other code is re-thrown to the caller with no write
performed. -/
theorem C7_mkdir_eexist (ga : GoogleAuthorize) (w : World) (token : Json) (e : JsError)
    (h : w.mkdirSync ga.TOKEN_DIR = .error e) :
    (e.code = some "EEXIST" →
      storeToken ga w token =
        (.ok (), Event.mkdirSync ga.TOKEN_DIR :: storeTokenWrite ga w token)) ∧
    (e.code ≠ some "EEXIST" →
      storeToken ga w token = (.error e, [Event.mkdirSync ga.TOKEN_DIR])) := by
  constructor <;> intro hc <;> simp [storeToken, h, hc]

/-- C8 (amended): in every invocation of `storeToken` whose synchronous
part succeeds and whose asynchronous write succeeds, the destination path
is logged immediately after the write is initiated and strictly before
the write-completion event, not after it. -/
theorem C8_log_before_write_completes (ga : GoogleAuthorize) (w : World) (token : Json)
    (hok : (storeToken ga w token).1 = .ok ())
    (hw : w.writeFile ga.TOKEN_PATH (.json token) = none) :
    (storeToken ga w token).2 =
      [Event.mkdirSync ga.TOKEN_DIR,
       Event.writeFileStart ga.TOKEN_PATH (.json token),
       Event.consoleLog ("Token stored to " ++ ga.TOKEN_PATH),
       Event.writeFileComplete ga.TOKEN_PATH] := by
  cases hmk : w.mkdirSync ga.TOKEN_DIR with
  | error e =>
      by_cases hc : e.code = some "EEXIST"
      · simp [storeToken, hmk, hc, storeTokenWrite, hw]
      · simp [storeToken, hmk, hc] at hok
  | ok u =>
      simp [storeToken, hmk, storeTokenWrite, hw]

/-- Example credentials document with client id, secret and one redirect
URI. -/
def credEx : Json :=
  .obj [("installed",
         .obj [("client_id", .str "id123"),
               ("client_secret", .str "sec456"),
               ("redirect_uris", .arr [.str "http://localhost"])])]

/-- Example token returned by the exchange. -/
def tokEx : Json :=
  .obj [("access_token", .str "at"), ("refresh_token", .str "rt")]

/-- Example missing-file error. -/
def enoentErr : JsError := { message := "ENOENT: no such file or directory", code := some "ENOENT" }

/-- Example directory-already-exists error. -/
def eexistErr : JsError := { message := "EEXIST: file already exists", code := some "EEXIST" }

/-- Example non-EEXIST directory-creation error. -/
def epermErr : JsError := { message := "EPERM: operation not permitted", code := some "EPERM" }

/-- World with a readable credentials file and a readable, well-formed
cache file. -/
def wCacheHit : World :=
  { readFile := fun path =>
      if path = "credentials.json" then .ok (.json credEx)
      else if path = "/home/u/.credentials/googleapis.json" then .ok (.json tokEx)
      else .error enoentErr
    stdinLine := "code42"
    getToken := fun _ => .error enoentErr
    mkdirSync := fun _ => .ok ()
    writeFile := fun _ _ => none }

/-- World where every file read fails. -/
def wNoCred : World :=
  { readFile := fun _ => .error enoentErr
    stdinLine := "code42"
    getToken := fun _ => .ok tokEx
    mkdirSync := fun _ => .ok ()
    writeFile := fun _ _ => none }

/-- World with a readable credentials file, no cache file, and a
successful exchange and write. -/
def wNoCache : World :=
  { readFile := fun path =>
      if path = "credentials.json" then .ok (.json credEx) else .error enoentErr
    stdinLine := "code42"
    getToken := fun _ => .ok tokEx
    mkdirSync := fun _ => .ok ()
    writeFile := fun _ _ => none }

/-- World like `wNoCache` but whose token exchange fails. -/
def wExchangeFail : World :=
  { readFile := fun path =>
      if path = "credentials.json" then .ok (.json credEx) else .error enoentErr
    stdinLine := "code42"
    getToken := fun _ => .error { message := "invalid_grant" }
    mkdirSync := fun _ => .ok ()
    writeFile := fun _ _ => none }

/-- World with a readable credentials file and a cache file holding
non-JSON text. -/
def wCorruptCache : World :=
  { readFile := fun path =>
      if path = "credentials.json" then .ok (.json credEx)
      else if path = "/home/u/.credentials/googleapis.json" then .ok (.text "not json")
      else .error enoentErr
    stdinLine := "code42"
    getToken := fun _ => .ok tokEx
    mkdirSync := fun _ => .ok ()
    writeFile := fun _ _ => none }

/-- World whose directory creation fails with EEXIST. -/
def wEEXIST : World :=
  { readFile := fun path =>
      if path = "credentials.json" then .ok (.json credEx) else .error enoentErr
    stdinLine := "code42"
    getToken := fun _ => .ok tokEx
    mkdirSync := fun _ => .error eexistErr
    writeFile := fun _ _ => none }

/-- World whose directory creation fails with EPERM. -/
def wEPERM : World :=
  { readFile := fun path =>
      if path = "credentials.json" then .ok (.json credEx) else .error enoentErr
    stdinLine := "code42"
    getToken := fun _ => .ok tokEx
    mkdirSync := fun _ => .error epermErr
    writeFile := fun _ _ => none }

/-- Witness for C2: cache hit in the concrete world `wCacheHit`. -/
theorem C2_witness :
    gaEx.authorize wCacheHit =
      (.resolved { clientId := some (.str "id123"), clientSecret := some (.str "sec456"),
                   redirectUrl := some (.str "http://localhost"), credentials := some tokEx },
       [.readFile gaEx.credentialsPath, .readFile gaEx.TOKEN_PATH]) ∧
    (gaEx.authorize wCacheHit).2.all (fun e => !e.isInteractive) = true :=
  C2_cache_hit gaEx wCacheHit credEx tokEx
    (some (.str "sec456")) (some (.str "id123")) (some (.str "http://localhost"))
    rfl rfl rfl

/-- Witness for C4: missing credentials file in the concrete world
`wNoCred`. -/
theorem C4_witness :
    gaEx.authorize wNoCred =
      (.rejected enoentErr,
       [.readFile gaEx.credentialsPath,
        .consoleError ("Error loading credentials.json file: " ++ enoentErr.message)]) ∧
    (gaEx.authorize wNoCred).2.all (fun ev => !ev.touchesStore) = true :=
  C4_cred_read_failure gaEx wNoCred enoentErr rfl

/-- Witness for C5: interactive acquisition in the concrete world
`wNoCache`. -/
theorem C5_witness :
    gaEx.authorize wNoCache =
      (.resolved { clientId := some (.str "id123"), clientSecret := some (.str "sec456"),
                   redirectUrl := some (.str "http://localhost"), credentials := some tokEx },
       [.readFile gaEx.credentialsPath, .readFile gaEx.TOKEN_PATH,
        .printAuthUrl "offline" gaEx.SCOPES,
        .question "Enter the code from that page here: " wNoCache.stdinLine,
        .tokenExchange wNoCache.stdinLine,
        .mkdirSync gaEx.TOKEN_DIR,
        .writeFileStart gaEx.TOKEN_PATH (.json tokEx),
        .consoleLog ("Token stored to " ++ gaEx.TOKEN_PATH),
        .writeFileComplete gaEx.TOKEN_PATH]) ∧
    (gaEx.authorize wNoCache).2.countP (fun ev => ev.isExchange) = 1 ∧
    ∀ scope ∈ gaEx.SCOPES, ∃ sl, Event.printAuthUrl "offline" sl ∈ (gaEx.authorize wNoCache).2 ∧
      scope ∈ sl :=
  C5_interactive_success gaEx wNoCache credEx tokEx
    (some (.str "sec456")) (some (.str "id123")) (some (.str "http://localhost")) enoentErr
    rfl rfl rfl rfl rfl rfl

/-- Witness for C6: failing exchange in the concrete world
`wExchangeFail`. -/
theorem C6_witness :
    gaEx.authorize wExchangeFail =
      (.rejected { message := "invalid_grant" },
       [.readFile gaEx.credentialsPath, .readFile gaEx.TOKEN_PATH,
        .printAuthUrl "offline" gaEx.SCOPES,
        .question "Enter the code from that page here: " wExchangeFail.stdinLine,
        .tokenExchange wExchangeFail.stdinLine,
        .consoleLog "Error while trying to retrieve access token"]) ∧
    (gaEx.authorize wExchangeFail).2.countP (fun ev => ev.isExchange) = 1 ∧
    (gaEx.authorize wExchangeFail).2.all (fun ev => !ev.touchesStore) = true :=
  C6_exchange_failure gaEx wExchangeFail credEx
    (some (.str "sec456")) (some (.str "id123")) (some (.str "http://localhost"))
    enoentErr { message := "invalid_grant" }
    rfl rfl rfl rfl

/-- Witness for C9: corrupt cache content in the concrete world
`wCorruptCache`. -/
theorem C9_witness :
    gaEx.authorize wCorruptCache =
      (.uncaught { message := "Unexpected token in JSON" },
       [.readFile gaEx.credentialsPath, .readFile gaEx.TOKEN_PATH]) ∧
    (∀ e : JsError, (gaEx.authorize wCorruptCache).1 ≠ .rejected e) ∧
    (gaEx.authorize wCorruptCache).2.all (fun ev => !ev.isInteractive) = true :=
  C9_corrupt_cache gaEx wCorruptCache credEx
    (some (.str "sec456")) (some (.str "id123")) (some (.str "http://localhost")) "not json"
    rfl rfl rfl

/-- Witness for C7 at concrete EEXIST and EPERM directory-creation
failures. -/
theorem C7_witness :
    storeToken gaEx wEEXIST tokEx =
      (.ok (), Event.mkdirSync gaEx.TOKEN_DIR :: storeTokenWrite gaEx wEEXIST tokEx) ∧
    storeToken gaEx wEPERM tokEx = (.error epermErr, [Event.mkdirSync gaEx.TOKEN_DIR]) :=
  ⟨(C7_mkdir_eexist gaEx wEEXIST tokEx eexistErr rfl).1 rfl,
   (C7_mkdir_eexist gaEx wEPERM tokEx epermErr rfl).2 (by simp [epermErr])⟩

/-- Witness for the amended C8 in the concrete world `wNoCache`. -/
theorem C8_witness :
    (storeToken gaEx wNoCache tokEx).2 =
      [Event.mkdirSync gaEx.TOKEN_DIR,
       Event.writeFileStart gaEx.TOKEN_PATH (.json tokEx),
       Event.consoleLog ("Token stored to " ++ gaEx.TOKEN_PATH),
       Event.writeFileComplete gaEx.TOKEN_PATH] :=
  C8_log_before_write_completes gaEx wNoCache tokEx rfl rfl

/-- Counterexample to C8 as stated: in the concrete successful invocation
`storeToken gaEx wNoCache tokEx` the destination-path log is the trace's
third event and the write completion its fourth, so the log does NOT
happen after the write has completed. -/
theorem C8_counterexample :
    (storeToken gaEx wNoCache tokEx).1 = .ok () ∧
    (storeToken gaEx wNoCache tokEx).2.get? 2 =
      some (.consoleLog ("Token stored to " ++ gaEx.TOKEN_PATH)) ∧
    (storeToken gaEx wNoCache tokEx).2.get? 3 =
      some (.writeFileComplete gaEx.TOKEN_PATH) ∧
    ∀ i j,
      (storeToken gaEx wNoCache tokEx).2.get? i =
        some (.writeFileComplete gaEx.TOKEN_PATH) →
      (storeToken gaEx wNoCache tokEx).2.get? j =
        some (.consoleLog ("Token stored to " ++ gaEx.TOKEN_PATH)) →
      ¬ i < j := by
  refine ⟨rfl, rfl, rfl, ?_⟩
  have ht : (storeToken gaEx wNoCache tokEx).2 =
      [Event.mkdirSync gaEx.TOKEN_DIR,
       Event.writeFileStart gaEx.TOKEN_PATH (.json tokEx),
       Event.consoleLog ("Token stored to " ++ gaEx.TOKEN_PATH),
       Event.writeFileComplete gaEx.TOKEN_PATH] := rfl
  intro i j hi hj
  rw [ht] at hi hj
  rcases i with _|_|_|_|i <;> rcases j with _|_|_|_|j <;> simp_all
